import Mathlib

set_option maxRecDepth 8192

/-!
Shallow embedding of `Frontend/app.py` (Codebase Genius Streamlit frontend).

The file under verification is UI glue: four HTTP helper functions
(`check_backend_health`, `analyze_repository`, `check_task_status`,
`download_documentation`), a submit handler behind the "Analyze Repository"
button, a status panel that polls the backend, and a results section that
downloads and renders the generated document.

Modelling conventions:
- A JSON value is `JVal`; a JSON object body is an association list `JObj`.
- One `requests` call is summarised by an `HttpResult`: either a completed
  response (status code plus parsed JSON-object body) or a raised
  transport/JSON exception carrying its `str(e)` message.
- Streamlit widgets that the script emits are collected into a `List Widget`;
  `st.rerun()` aborts the script run and schedules a fresh render, modelled by
  a `rerun` flag on the outcome, and `time.sleep(3)` is recorded in
  `sleep_seconds`.
- Python `d.get(k, default)` on a parsed JSON object is `JObj.getD`; calling
  `.get` on a value that is not a dict raises `AttributeError`, which the
  script does not catch, so the render functions return `Option` and yield
  `none` exactly on those uncaught-exception paths.
-/

/-- A parsed JSON value, as produced by `response.json()`. -/
inductive JVal where
  | str (s : String)
  | num (n : Int)
  | bool (b : Bool)
  | null
  | obj (fields : List (String × JVal))
  | arr (elems : List JVal)
deriving Repr

/-- A JSON object body: the association list of its fields. -/
abbrev JObj := List (String × JVal)

/-- Python `k in d` on a JSON object. -/
def JObj.hasKey (o : JObj) (k : String) : Bool :=
  o.any (fun p => p.1 == k)

/-- Python `d.get(k)` / `d[k]` lookup on a JSON object (first binding wins). -/
def JObj.get? (o : JObj) (k : String) : Option JVal :=
  (o.find? (fun p => p.1 == k)).map Prod.snd

/-- Python `d.get(k, default)` on a JSON object. -/
def JObj.getD (o : JObj) (k : String) (d : JVal) : JVal :=
  (JObj.get? o k).getD d

/-- Python truthiness of a JSON value (`if x:`). -/
def JVal.truthy : JVal → Bool
  | .str s => !s.isEmpty
  | .num n => !(n == 0)
  | .bool b => b
  | .null => false
  | .obj fields => !fields.isEmpty
  | .arr elems => !elems.isEmpty

mutual
/-- Python `str()` of a JSON value, as interpolated into f-strings.
(Dict keys are rendered without Python's quote characters; no claim
inspects the rendering of composite values.) -/
def JVal.display : JVal → String
  | .str s => s
  | .num n => toString n
  | .bool b => if b then "True" else "False"
  | .null => "None"
  | .obj fields => "\x7b" ++ JVal.displayFields fields ++ "\x7d"
  | .arr elems => "[" ++ JVal.displayElems elems ++ "]"

/-- Comma-separated rendering of a JSON object's fields. -/
def JVal.displayFields : List (String × JVal) → String
  | [] => ""
  | [(k, v)] => k ++ ": " ++ JVal.display v
  | (k, v) :: rest => k ++ ": " ++ JVal.display v ++ ", " ++ JVal.displayFields rest

/-- Comma-separated rendering of a JSON array's elements. -/
def JVal.displayElems : List JVal → String
  | [] => ""
  | [e] => JVal.display e
  | e :: rest => JVal.display e ++ ", " ++ JVal.displayElems rest
end

/-- Python `str()` of an optional JSON value (`None` renders as "None"). -/
def displayOptJVal : Option JVal → String
  | none => "None"
  | some v => v.display

/-- Outcome of one `requests` call: a completed HTTP response with a status
code and parsed JSON-object body, or a raised exception (timeout, connection
error, JSON decode error, ...) carrying its `str(e)` message. -/
inductive HttpResult where
  | ok (status_code : Nat) (body : JObj)
  | exn (msg : String)

/-- The call failed from the script's point of view: non-200 status or a
raised exception. -/
def HttpResult.failed : HttpResult → Prop
  | .ok code _ => code ≠ 200
  | .exn _ => True

/-- `check_backend_health` (app.py lines 81-87): GET `/health`; returns
`response.status_code == 200`, and `False` on any raised exception. -/
def check_backend_health (resp : HttpResult) : Bool :=
  match resp with
  | .ok code _ => code == 200
  | .exn _ => false

/-- `analyze_repository` (app.py lines 89-102): POST `/analyze_repo` with the
repository URL; on 200 returns `response.json()`, on other codes returns
`\x7b"error": f"Failed with status code: ..."\x7d`, and on a raised exception
returns `\x7b"error": str(e)\x7d`. Totality of this Lean function models that
no exception escapes the `try`. -/
def analyze_repository (repo_url : String) (resp : HttpResult) : JObj :=
  match resp with
  | .ok code body =>
      if code == 200 then body
      else [("error", .str ("Failed with status code: " ++ toString code))]
  | .exn e => [("error", .str e)]

/-- `check_task_status` (app.py lines 104-113): GET `/status/\x7btask_id\x7d`;
on 200 returns `response.json()`, on other codes returns
`\x7b"status": "error", "error": "Failed to check status"\x7d`, and on a
raised exception returns `\x7b"status": "error", "error": str(e)\x7d`. -/
def check_task_status (task_id : JVal) (resp : HttpResult) : JObj :=
  match resp with
  | .ok code body =>
      if code == 200 then body
      else [("status", .str "error"), ("error", .str "Failed to check status")]
  | .exn e => [("status", .str "error"), ("error", .str e)]

/-- `download_documentation` (app.py lines 115-124): GET
`/download/\x7btask_id\x7d`; on 200 returns `response.json()`, on other codes
returns `\x7b"error": "Failed to download documentation"\x7d`, and on a raised
exception returns `\x7b"error": str(e)\x7d`. -/
def download_documentation (task_id : JVal) (resp : HttpResult) : JObj :=
  match resp with
  | .ok code body =>
      if code == 200 then body
      else [("error", .str "Failed to download documentation")]
  | .exn e => [("error", .str e)]

/-- The four `st.session_state` fields the script uses (app.py lines 71-78). -/
structure Session where
  task_id : Option JVal
  status : Option String
  documentation : Option String
  repo_url : String

/-- Session state right after UI load (app.py lines 71-78): every field is
initialised because none is present in a fresh session. -/
def initSession : Session :=
  { task_id := none, status := none, documentation := none, repo_url := "" }

/-- One Streamlit widget emitted by the script, as far as the claims observe
them. `progressBar` is `st.progress` with an integer literal; `progressFrac`
records the raw `progress_percentage` value passed to
`st.progress(progress_pct / 100)`; `metric` stores the raw JSON value shown
(number formatting is presentational). -/
inductive Widget where
  | errorMsg (text : String)
  | successMsg (text : String)
  | infoMsg (text : String)
  | warningMsg (text : String)
  | header (text : String)
  | subheader (text : String)
  | progressBar (value : JVal)
  | progressFrac (raw_pct : JVal)
  | markdownView (content : JVal)
  | codeView (content : JVal)
  | downloadButton (file_name : String) (data : JVal)
  | metric (label : String) (value : JVal)
  | jsonView (content : JVal)
deriving Repr

/-- Result of running the "Analyze Repository" button handler. -/
structure SubmitOutcome where
  session : Session
  network_called : Bool
  messages : List Widget
  rerun : Bool

/-- Python `str.startswith`: the prefix's characters form an initial segment
of the string's characters. (Lean's own `String.startsWith` is defined by
well-founded recursion and does not evaluate inside the kernel, so the
Python operation is embedded at the character-list level.) -/
def strStartsWith (s pre : String) : Bool :=
  pre.data.isPrefixOf s.data

/-- The "Analyze Repository" button handler (app.py lines 186-202).
`repo_url` is the text-input value; `resp` is the backend's answer to the
POST, consumed only when validation passes. `network_called` records whether
`analyze_repository` was invoked. -/
def submitAnalysis (s : Session) (repo_url : String) (resp : HttpResult) : SubmitOutcome :=
  if repo_url.isEmpty then
    { session := s, network_called := false,
      messages := [.errorMsg "Please enter a repository URL"], rerun := false }
  else if !(strStartsWith repo_url "https://github.com/") then
    { session := s, network_called := false,
      messages := [.errorMsg "Please enter a valid GitHub URL"], rerun := false }
  else
    let result := analyze_repository repo_url resp
    if JObj.hasKey result "error" then
      { session := s, network_called := true,
        messages := [.errorMsg ("Error: " ++ (JObj.getD result "error" .null).display)],
        rerun := false }
    else
      let new_task_id := JObj.get? result "task_id"
      { session := { s with task_id := new_task_id, status := some "processing",
                            repo_url := repo_url },
        network_called := true,
        messages := [.successMsg ("✅ Analysis started! Task ID: " ++ displayOptJVal new_task_id)],
        rerun := true }

/-- Python `status_data.get("progress", \x7b\x7d)` used as a dict: yields the
fields when the value is a JSON object, the empty default when the key is
absent, and `none` when the value is present but not a dict — on that path
the script's subsequent `.get` raises an uncaught `AttributeError`. -/
def pyGetDict? (o : JObj) (k : String) : Option JObj :=
  match JObj.get? o k with
  | none => some []
  | some (.obj fields) => some fields
  | some _ => none

/-- Python `v == "s"` for a JSON value against a string literal. -/
def jvalIsStr (v : JVal) (s : String) : Bool :=
  match v with
  | .str t => t == s
  | _ => false

/-- `current_status not in ["completed", "error"]` negated (app.py line 233). -/
def isTerminalStatus (v : JVal) : Bool :=
  jvalIsStr v "completed" || jvalIsStr v "error"

/-- The status panel display (app.py lines 218-230). -/
def statusWidgets (current_status progress_pct current_step : JVal) : List Widget :=
  if jvalIsStr current_status "completed" then
    [.successMsg "✅ Completed!", .progressBar (.num 100)]
  else if jvalIsStr current_status "error" then
    [.errorMsg "❌ Error occurred", .progressBar (.num 0)]
  else if jvalIsStr current_status "processing" then
    [.infoMsg ("🔄 Processing: " ++ current_step.display), .progressFrac progress_pct]
  else
    [.warningMsg ("Status: " ++ current_status.display), .progressBar (.num 0)]

/-- The results section's completed branch (app.py lines 250-295), given the
`progress` fields of the second status poll, the body returned by
`download_documentation`, and the `datetime.now().strftime(...)` timestamp
used in the download file name. All three tabs are materialised. `none`
models the uncaught `AttributeError` when `result` or `stats` is present but
not a dict. -/
def completedResultsView (progress2 : JObj) (doc_data : JObj) (now : String) :
    Option (List Widget) :=
  if !(JObj.hasKey doc_data "error") then
    let documentation := JObj.getD doc_data "doc_content" (.str "")
    if documentation.truthy then
      match pyGetDict? progress2 "result" with
      | none => none
      | some result =>
        match pyGetDict? result "stats" with
        | none => none
        | some stats =>
          let repo_info := JObj.getD result "repo_info" .null
          some ([Widget.markdownView documentation,
                 Widget.codeView documentation,
                 Widget.downloadButton ("documentation_" ++ now ++ ".md") documentation,
                 Widget.metric "Total Files" (JObj.getD stats "total_files" (.num 0)),
                 Widget.metric "Total Entities" (JObj.getD stats "total_entities" (.num 0)),
                 Widget.metric "Doc Size" (JObj.getD stats "documentation_size" (.num 0))] ++
                (if repo_info.truthy then
                   [Widget.subheader "Repository Information", Widget.jsonView repo_info]
                 else []))
    else
      some [Widget.warningMsg "Documentation is empty or not yet generated."]
  else
    some [Widget.errorMsg ("Error downloading documentation: " ++
            (JObj.getD doc_data "error" .null).display)]

/-- Observable trace of one script run over the status panel and results
section: final session, number of `check_task_status` calls, number of
`download_documentation` calls, seconds slept, whether `st.rerun()` was
reached, the status string of the last poll result observed, and the widgets
emitted. -/
structure RenderTrace where
  session : Session
  poll_calls : Nat
  download_calls : Nat
  sleep_seconds : Nat
  rerun : Bool
  latest_status : Option JVal
  view : List Widget

/-- One script run over the status panel (app.py lines 204-239) and the
results section (app.py lines 241-304), with the analyze button not pressed
and the refresh button not pressed. `statusResp1` answers the col2 poll
(line 213), `statusResp2` the results-section poll (line 246), `docResp` the
download (line 251). In the non-terminal branch `st.rerun()` (line 239)
aborts the run before the results section. `none` models an uncaught
exception during rendering. -/
def renderPass (s : Session) (statusResp1 statusResp2 docResp : HttpResult)
    (now : String) : Option RenderTrace :=
  match s.task_id with
  | none =>
      some { session := s, poll_calls := 0, download_calls := 0, sleep_seconds := 0,
             rerun := false, latest_status := none, view := [] }
  | some tid =>
      let status_data := check_task_status tid statusResp1
      match pyGetDict? status_data "progress" with
      | none => none
      | some progress =>
        let current_status := JObj.getD progress "status" (.str "unknown")
        let progress_pct := JObj.getD progress "progress_percentage" (.num 0)
        let current_step := JObj.getD progress "current_step" (.str "")
        let panel := Widget.header "📊 Status" ::
          statusWidgets current_status progress_pct current_step
        if !(isTerminalStatus current_status) then
          some { session := s, poll_calls := 1, download_calls := 0, sleep_seconds := 3,
                 rerun := true, latest_status := some current_status, view := panel }
        else
          let status_data2 := check_task_status tid statusResp2
          match pyGetDict? status_data2 "progress" with
          | none => none
          | some progress2 =>
            let current_status2 := JObj.getD progress2 "status" (.str "unknown")
            if jvalIsStr current_status2 "completed" then
              let doc_data := download_documentation tid docResp
              match completedResultsView progress2 doc_data now with
              | none => none
              | some resView =>
                some { session := s, poll_calls := 2, download_calls := 1,
                       sleep_seconds := 0, rerun := false,
                       latest_status := some current_status2,
                       view := panel ++ Widget.header "📄 Documentation" :: resView }
            else
              some { session := s, poll_calls := 2, download_calls := 0,
                     sleep_seconds := 0, rerun := false,
                     latest_status := some current_status2,
                     view := panel ++ Widget.header "📄 Documentation" ::
                       (if jvalIsStr current_status2 "error" then
                          [Widget.errorMsg "An error occurred during analysis. Please try again."]
                        else if jvalIsStr current_status2 "processing" then
                          [Widget.infoMsg "⏳ Analysis in progress... Please wait."]
                        else
                          [Widget.infoMsg "Waiting for analysis to start..."]) }

/-- The status string a poll of `check_task_status` yields, following
app.py lines 246-247 (`none` when the script would crash reading it). -/
def pollStatusOf (tid : JVal) (resp : HttpResult) : Option JVal :=
  (pyGetDict? (check_task_status tid resp) "progress").map
    (fun progress => JObj.getD progress "status" (.str "unknown"))

/-- Erase the timestamped suggested file name from a download button. -/
def scrubFileName : Widget → Widget
  | .downloadButton _ data => .downloadButton "" data
  | w => w

/-- A rendered view up to the timestamped download file name. -/
def scrubFileNames (v : List Widget) : List Widget :=
  v.map scrubFileName

/-- The suggested file names of the download buttons in a view. -/
def downloadNames (v : List Widget) : List String :=
  v.filterMap (fun w =>
    match w with
    | .downloadButton f _ => some f
    | _ => none)

/-- A session with an active task, as after a successful submission. -/
def sW : Session :=
  { task_id := some (.str "abc123"), status := some "processing",
    documentation := none, repo_url := "https://github.com/acme/widgets" }

/-- A backend status response reporting a completed task with results. -/
def respCompleted : HttpResult :=
  .ok 200 [("progress", .obj
    [("status", .str "completed"), ("progress_percentage", .num 100),
     ("current_step", .str "done"),
     ("result", .obj [("stats", .obj [("total_files", .num 3)]),
                      ("repo_info", .obj [("name", .str "widgets")])])])]

/-- A backend status response reporting a task still in progress. -/
def respProcessing : HttpResult :=
  .ok 200 [("progress", .obj
    [("status", .str "processing"), ("progress_percentage", .num 40),
     ("current_step", .str "parsing")])]

/-- A backend status response reporting a failed task. -/
def respErrored : HttpResult :=
  .ok 200 [("progress", .obj [("status", .str "error")])]

/-- A successful download response carrying a non-empty document. -/
def respDoc : HttpResult := .ok 200 [("doc_content", .str "# Docs")]

/-- Placeholder trace used as the default of `Option.getD`. -/
def emptyTrace : RenderTrace :=
  { session := initSession, poll_calls := 0, download_calls := 0, sleep_seconds := 0,
    rerun := false, latest_status := none, view := [] }

/-- The trace of a render over a completed task at one timestamp. -/
def traceCompleted : RenderTrace :=
  (renderPass sW respCompleted respCompleted respDoc "20250101_000000").getD emptyTrace

/-- The trace of the consecutive render, one second later. -/
def traceCompleted2 : RenderTrace :=
  (renderPass sW respCompleted respCompleted respDoc "20250101_000001").getD emptyTrace

/-- The trace of a render over a task still in progress. -/
def traceProcessing : RenderTrace :=
  (renderPass sW respProcessing respProcessing respDoc "t").getD emptyTrace

/-- The trace of a render over a task whose poll reports status error. -/
def traceErrored : RenderTrace :=
  (renderPass sW respErrored respErrored respDoc "t").getD emptyTrace

/-- A render pass leaves the session exactly as it found it: neither the
status panel nor the results section writes any `st.session_state` field. -/
theorem renderPass_session_eq (s : Session) (r1 r2 d : HttpResult) (now : String)
    (t : RenderTrace) (h : renderPass s r1 r2 d now = some t) : t.session = s := by
  unfold renderPass at h
  dsimp only [] at h
  repeat' split at h
  all_goals try exact Option.noConfusion h
  all_goals (injection h with h; subst h; rfl)

/-- A render pass calls `download_documentation` at most once. -/
theorem renderPass_download_le_one (s : Session) (r1 r2 d : HttpResult) (now : String)
    (t : RenderTrace) (h : renderPass s r1 r2 d now = some t) : t.download_calls ≤ 1 := by
  unfold renderPass at h
  dsimp only [] at h
  repeat' split at h
  all_goals try exact Option.noConfusion h
  all_goals (injection h with h; subst h; simp)

/-- With a task id in the session, every render pass polls at least once. -/
theorem renderPass_polls_pos (s : Session) (tid : JVal) (r1 r2 d : HttpResult)
    (now : String) (t : RenderTrace) (htid : s.task_id = some tid)
    (h : renderPass s r1 r2 d now = some t) : 1 ≤ t.poll_calls := by
  unfold renderPass at h
  rw [htid] at h
  dsimp only [] at h
  repeat' split at h
  all_goals try exact Option.noConfusion h
  all_goals (injection h with h; subst h; simp)

/-- A key that `in` does not see is a key `.get` returns `None` for. -/
theorem JObj.get?_eq_none_of_hasKey_false (o : JObj) (k : String)
    (h : JObj.hasKey o k = false) : JObj.get? o k = none := by
  unfold JObj.hasKey at h
  unfold JObj.get?
  have hfind : List.find? (fun p => p.1 == k) o = none := by
    rw [List.find?_eq_none]
    intro x hx
    simpa using List.any_eq_false.mp h x hx
  rw [hfind]
  rfl

/-- The completed-branch view, with its download-button file name erased, does
not depend on the render timestamp. -/
theorem completedResultsView_scrub_const (p dd : JObj) (n1 n2 : String) :
    (completedResultsView p dd n1).map scrubFileNames =
    (completedResultsView p dd n2).map scrubFileNames := by
  unfold completedResultsView
  dsimp only []
  repeat' split
  all_goals simp [scrubFileNames, scrubFileName]

/-- The full rendered view, with download-button file names erased, does not
depend on the render timestamp: the timestamp reaches only the suggested
file name of `st.download_button`. -/
theorem renderPass_scrub_const (s : Session) (r1 r2 d : HttpResult) (n1 n2 : String) :
    (renderPass s r1 r2 d n1).map (fun t => scrubFileNames t.view) =
    (renderPass s r1 r2 d n2).map (fun t => scrubFileNames t.view) := by
  unfold renderPass
  dsimp only []
  cases htid : s.task_id with
  | none => rfl
  | some tid =>
    dsimp only []
    cases hpg : pyGetDict? (check_task_status tid r1) "progress" with
    | none => rfl
    | some progress =>
      dsimp only []
      by_cases hterm : (!isTerminalStatus (JObj.getD progress "status" (.str "unknown"))) = true
      · rw [if_pos hterm, if_pos hterm]
      · rw [if_neg hterm, if_neg hterm]
        cases hpg2 : pyGetDict? (check_task_status tid r2) "progress" with
        | none => rfl
        | some progress2 =>
          dsimp only []
          by_cases hcomp : jvalIsStr (JObj.getD progress2 "status" (.str "unknown")) "completed" = true
          · rw [if_pos hcomp, if_pos hcomp]
            have hcc := completedResultsView_scrub_const progress2
              (download_documentation tid d) n1 n2
            cases hc1 : completedResultsView progress2 (download_documentation tid d) n1 with
            | none =>
              cases hc2 : completedResultsView progress2 (download_documentation tid d) n2 with
              | none => rfl
              | some v2 => rw [hc1, hc2] at hcc; exact absurd hcc (by simp)
            | some v1 =>
              cases hc2 : completedResultsView progress2 (download_documentation tid d) n2 with
              | none => rw [hc1, hc2] at hcc; exact absurd hcc (by simp)
              | some v2 =>
                rw [hc1, hc2] at hcc
                simp only [Option.map_some', Option.some.injEq] at hcc ⊢
                simp only [scrubFileNames] at hcc ⊢
                simp [List.map_append, hcc]
          · rw [if_neg hcomp, if_neg hcomp]

/-- C1: for every repository URL that is empty or does not start with
"https://github.com/", the analyze handler never invokes
`analyze_repository` (no network call) and renders a validation error
message instead. -/
theorem invalid_url_never_calls_network (s : Session) (repo_url : String)
    (resp : HttpResult)
    (h : repo_url = "" ∨ strStartsWith repo_url "https://github.com/" = false) :
    (submitAnalysis s repo_url resp).network_called = false ∧
    ((submitAnalysis s repo_url resp).messages =
        [Widget.errorMsg "Please enter a repository URL"] ∨
     (submitAnalysis s repo_url resp).messages =
        [Widget.errorMsg "Please enter a valid GitHub URL"]) := by
  rcases h with rfl | h
  · exact ⟨rfl, Or.inl rfl⟩
  · cases he : repo_url.isEmpty with
    | true =>
      unfold submitAnalysis
      simp [he]
    | false =>
      unfold submitAnalysis
      simp [he, h]

/-- C1 witness: the concrete input "not-a-url" is rejected without any
network call. -/
theorem invalid_url_never_calls_network_witness :
    ("not-a-url" = "" ∨ strStartsWith "not-a-url" "https://github.com/" = false) ∧
    ((submitAnalysis initSession "not-a-url" (.exn "boom")).network_called = false ∧
     ((submitAnalysis initSession "not-a-url" (.exn "boom")).messages =
         [Widget.errorMsg "Please enter a repository URL"] ∨
      (submitAnalysis initSession "not-a-url" (.exn "boom")).messages =
         [Widget.errorMsg "Please enter a valid GitHub URL"])) :=
  ⟨Or.inr rfl,
   invalid_url_never_calls_network initSession "not-a-url" (.exn "boom") (Or.inr rfl)⟩

/-- C2: on every non-200 response and on every raised transport exception,
each of the three network operations returns a dictionary containing an
"error" key; totality of the embedded functions reflects that the `try`
blocks let no exception escape. -/
theorem failed_calls_return_error_key (repo_url : String) (task_id : JVal)
    (resp : HttpResult) (h : resp.failed) :
    JObj.hasKey (analyze_repository repo_url resp) "error" = true ∧
    JObj.hasKey (check_task_status task_id resp) "error" = true ∧
    JObj.hasKey (download_documentation task_id resp) "error" = true := by
  cases resp with
  | ok code body =>
    have hc : (code == 200) = false := by
      simp only [HttpResult.failed] at h
      simpa using h
    refine ⟨?_, ?_, ?_⟩ <;>
      simp [analyze_repository, check_task_status, download_documentation, JObj.hasKey, hc]
  | exn e =>
    refine ⟨?_, ?_, ?_⟩ <;>
      simp [analyze_repository, check_task_status, download_documentation, JObj.hasKey]

/-- C2 witness: a concrete timeout exception yields error-shaped results from
all three operations. -/
theorem failed_calls_return_error_key_witness :
    HttpResult.failed (.exn "timeout") ∧
    (JObj.hasKey (analyze_repository "u" (.exn "timeout")) "error" = true ∧
     JObj.hasKey (check_task_status (.str "t") (.exn "timeout")) "error" = true ∧
     JObj.hasKey (download_documentation (.str "t") (.exn "timeout")) "error" = true) :=
  ⟨trivial, failed_calls_return_error_key "u" (.str "t") (.exn "timeout") trivial⟩

/-- C5: when the submission result is error-shaped, every session field is
left as it was and the handler renders exactly one error message. -/
theorem error_submission_preserves_session (s : Session) (repo_url : String)
    (resp : HttpResult)
    (h1 : repo_url.isEmpty = false)
    (h2 : strStartsWith repo_url "https://github.com/" = true)
    (h3 : JObj.hasKey (analyze_repository repo_url resp) "error" = true) :
    (submitAnalysis s repo_url resp).session = s ∧
    ∃ msg, (submitAnalysis s repo_url resp).messages = [Widget.errorMsg msg] := by
  unfold submitAnalysis
  simp [h1, h2, h3]

/-- C5 witness: a concrete transport failure on a valid URL leaves the
session untouched. -/
theorem error_submission_preserves_session_witness :
    ("https://github.com/acme/widgets".isEmpty = false ∧
     strStartsWith "https://github.com/acme/widgets" "https://github.com/" = true ∧
     JObj.hasKey (analyze_repository "https://github.com/acme/widgets" (.exn "boom"))
       "error" = true) ∧
    ((submitAnalysis sW "https://github.com/acme/widgets" (.exn "boom")).session = sW ∧
     ∃ msg, (submitAnalysis sW "https://github.com/acme/widgets" (.exn "boom")).messages =
       [Widget.errorMsg msg]) :=
  ⟨⟨rfl, by decide, rfl⟩,
   error_submission_preserves_session sW "https://github.com/acme/widgets" (.exn "boom")
     rfl (by decide) rfl⟩

/-- C7: the health check returns true exactly when the GET completed with
status code 200; every raised exception and every other status code gives
false. -/
theorem health_true_iff_200 (resp : HttpResult) :
    check_backend_health resp = true ↔ ∃ body, resp = HttpResult.ok 200 body := by
  cases resp with
  | ok code body =>
    simp only [check_backend_health, beq_iff_eq, HttpResult.ok.injEq]
    constructor
    · intro h; exact ⟨body, h, rfl⟩
    · rintro ⟨b, hb, -⟩; exact hb
  | exn e => simp [check_backend_health]

/-- C7 witness: a concrete 200 response is reported healthy. -/
theorem health_true_iff_200_witness :
    check_backend_health (.ok 200 []) = true :=
  (health_true_iff_200 (.ok 200 [])).mpr ⟨[], rfl⟩

/-- C8: for every task id, `check_task_status` passes through the backend's
raw JSON record on a 200 response, and on every non-200 response or raised
exception returns exactly the two-key record with status "error" and an
"error" message. -/
theorem poll_result_shape (task_id : JVal) (resp : HttpResult) :
    (∀ body, resp = .ok 200 body → check_task_status task_id resp = body) ∧
    (∀ code body, resp = .ok code body → code ≠ 200 →
       check_task_status task_id resp =
         [("status", .str "error"), ("error", .str "Failed to check status")]) ∧
    (∀ e, resp = .exn e →
       check_task_status task_id resp =
         [("status", .str "error"), ("error", .str e)]) := by
  refine ⟨?_, ?_, ?_⟩
  · rintro body rfl
    simp [check_task_status]
  · rintro code body rfl hne
    simp [check_task_status, hne]
  · rintro e rfl
    simp [check_task_status]

/-- C8 witness: a concrete 500 response maps to the exact error record. -/
theorem poll_result_shape_witness :
    check_task_status (.str "t1") (.ok 500 []) =
      [("status", .str "error"), ("error", .str "Failed to check status")] :=
  (poll_result_shape (.str "t1") (.ok 500 [])).2.1 500 [] rfl (by decide)

/-- C10: a submission whose 200 response body has no "error" key sets the
session status to the literal "processing" and repo_url to the submitted
URL; when the body also lacks a "task_id" key, the session task id becomes
None while the status is still "processing". -/
theorem successful_submission_updates_session (s : Session) (repo_url : String)
    (body : JObj)
    (h1 : repo_url.isEmpty = false)
    (h2 : strStartsWith repo_url "https://github.com/" = true)
    (h3 : JObj.hasKey body "error" = false) :
    (submitAnalysis s repo_url (.ok 200 body)).session.status = some "processing" ∧
    (submitAnalysis s repo_url (.ok 200 body)).session.repo_url = repo_url ∧
    (submitAnalysis s repo_url (.ok 200 body)).session.task_id = JObj.get? body "task_id" ∧
    (JObj.hasKey body "task_id" = false →
       (submitAnalysis s repo_url (.ok 200 body)).session.task_id = none) := by
  have ha : analyze_repository repo_url (.ok 200 body) = body := by
    simp [analyze_repository]
  unfold submitAnalysis
  rw [ha]
  simp only [h1, h2, h3, Bool.not_true, Bool.false_eq_true, if_false, ite_false, ite_true]
  refine ⟨?_, ?_, ?_, ?_⟩
  · simp [h1, h2, h3]
  · simp [h1, h2, h3]
  · simp [h1, h2, h3]
  · intro h4
    simp [h1, h2, h3, JObj.get?_eq_none_of_hasKey_false body "task_id" h4]

/-- C10 witness: a 200 body with neither "error" nor "task_id" keys yields
status "processing" and a None task id. -/
theorem successful_submission_updates_session_witness :
    ("https://github.com/acme/widgets".isEmpty = false ∧
     strStartsWith "https://github.com/acme/widgets" "https://github.com/" = true ∧
     JObj.hasKey [("message", JVal.str "ok")] "error" = false) ∧
    ((submitAnalysis initSession "https://github.com/acme/widgets"
        (.ok 200 [("message", JVal.str "ok")])).session.status = some "processing" ∧
     (submitAnalysis initSession "https://github.com/acme/widgets"
        (.ok 200 [("message", JVal.str "ok")])).session.repo_url =
          "https://github.com/acme/widgets" ∧
     (submitAnalysis initSession "https://github.com/acme/widgets"
        (.ok 200 [("message", JVal.str "ok")])).session.task_id =
          JObj.get? [("message", JVal.str "ok")] "task_id" ∧
     (JObj.hasKey [("message", JVal.str "ok")] "task_id" = false →
        (submitAnalysis initSession "https://github.com/acme/widgets"
           (.ok 200 [("message", JVal.str "ok")])).session.task_id = none)) :=
  ⟨⟨rfl, by decide, rfl⟩,
   successful_submission_updates_session initSession "https://github.com/acme/widgets"
     [("message", JVal.str "ok")] rfl (by decide) rfl⟩

/-- C3: in a single render pass with a set task id, a latest poll result with
status "completed" triggers exactly one `download_documentation` call, and a
latest poll result with status "error" schedules no re-render, so no further
`check_task_status` call happens after that result is observed. -/
theorem completed_downloads_once_error_stops (s : Session) (r1 r2 d : HttpResult)
    (now : String) (t : RenderTrace)
    (h : renderPass s r1 r2 d now = some t) :
    (t.latest_status = some (.str "completed") → t.download_calls = 1) ∧
    (t.latest_status = some (.str "error") → t.rerun = false) := by
  unfold renderPass at h
  dsimp only [] at h
  repeat' split at h
  all_goals try exact Option.noConfusion h
  all_goals (injection h with h; subst h)
  all_goals refine ⟨fun he => ?_, fun he => ?_⟩
  all_goals simp_all [isTerminalStatus, jvalIsStr]

/-- C3 witness: a concrete completed poll downloads exactly once. -/
theorem completed_downloads_once_error_stops_witness :
    renderPass sW respCompleted respCompleted respDoc "20250101_000000" =
      some traceCompleted ∧
    ((traceCompleted.latest_status = some (.str "completed") →
        traceCompleted.download_calls = 1) ∧
     (traceCompleted.latest_status = some (.str "error") →
        traceCompleted.rerun = false)) :=
  ⟨rfl, completed_downloads_once_error_stops sW respCompleted respCompleted respDoc
     "20250101_000000" traceCompleted rfl⟩

/-- C6: a non-terminal poll result makes the client sleep exactly 3 seconds
and schedule a re-render, and any following render pass polls the status
again; a terminal poll result schedules no delayed re-render. -/
theorem nonterminal_sleeps_three_and_reruns (s : Session) (tid : JVal)
    (r1 r2 d : HttpResult) (now : String) (t : RenderTrace) (v : JVal)
    (htid : s.task_id = some tid)
    (h : renderPass s r1 r2 d now = some t)
    (hv : pollStatusOf tid r1 = some v) :
    (isTerminalStatus v = false →
       t.sleep_seconds = 3 ∧ t.rerun = true ∧
       (∀ r1b r2b db nowb tb, renderPass t.session r1b r2b db nowb = some tb →
          1 ≤ tb.poll_calls)) ∧
    (isTerminalStatus v = true → t.sleep_seconds = 0 ∧ t.rerun = false) := by
  have hsess := renderPass_session_eq s r1 r2 d now t h
  have hpoll : ∀ r1b r2b db nowb tb, renderPass t.session r1b r2b db nowb = some tb →
      1 ≤ tb.poll_calls := by
    intro r1b r2b db nowb tb hb
    exact renderPass_polls_pos t.session tid r1b r2b db nowb tb (by rw [hsess, htid]) hb
  have key : (isTerminalStatus v = false → t.sleep_seconds = 3 ∧ t.rerun = true) ∧
      (isTerminalStatus v = true → t.sleep_seconds = 0 ∧ t.rerun = false) := by
    unfold pollStatusOf at hv
    unfold renderPass at h
    rw [htid] at h
    dsimp only [] at h
    repeat' split at h
    all_goals try exact Option.noConfusion h
    all_goals (injection h with h; subst h)
    all_goals refine ⟨fun hnt => ?_, fun hterm => ?_⟩
    all_goals simp_all
  exact ⟨fun hnt => ⟨(key.1 hnt).1, (key.1 hnt).2, hpoll⟩, key.2⟩

/-- C6 witness: a concrete processing poll sleeps 3 seconds and re-renders. -/
theorem nonterminal_sleeps_three_and_reruns_witness :
    (sW.task_id = some (.str "abc123") ∧
     renderPass sW respProcessing respProcessing respDoc "t" = some traceProcessing ∧
     pollStatusOf (.str "abc123") respProcessing = some (.str "processing")) ∧
    ((isTerminalStatus (.str "processing") = false →
        traceProcessing.sleep_seconds = 3 ∧ traceProcessing.rerun = true ∧
        (∀ r1b r2b db nowb tb,
           renderPass traceProcessing.session r1b r2b db nowb = some tb →
             1 ≤ tb.poll_calls)) ∧
     (isTerminalStatus (.str "processing") = true →
        traceProcessing.sleep_seconds = 0 ∧ traceProcessing.rerun = false)) :=
  ⟨⟨rfl, rfl, rfl⟩,
   nonterminal_sleeps_three_and_reruns sW (.str "abc123") respProcessing respProcessing
     respDoc "t" traceProcessing (.str "processing") rfl rfl rfl⟩

/-- C9: the session field `documentation` is None at UI load and no modelled
operation (submission or a full render pass, which includes polling and
download) ever writes it; the downloaded document lives only in a local
variable of the results section. -/
theorem documentation_field_never_written :
    initSession.documentation = none ∧
    (∀ s repo_url resp, (submitAnalysis s repo_url resp).session.documentation =
        s.documentation) ∧
    (∀ s r1 r2 d now t, renderPass s r1 r2 d now = some t →
        t.session.documentation = s.documentation) := by
  refine ⟨rfl, ?_, ?_⟩
  · intro s repo_url resp
    unfold submitAnalysis
    dsimp only []
    repeat' split
    all_goals rfl
  · intro s r1 r2 d now t h
    rw [renderPass_session_eq s r1 r2 d now t h]

/-- C9 witness: concrete submission and render passes leave the field as it
was. -/
theorem documentation_field_never_written_witness :
    (submitAnalysis sW "https://github.com/acme/widgets" (.exn "x")).session.documentation
      = sW.documentation ∧
    traceCompleted.session.documentation = sW.documentation :=
  ⟨documentation_field_never_written.2.1 sW "https://github.com/acme/widgets" (.exn "x"),
   documentation_field_never_written.2.2 sW respCompleted respCompleted respDoc
     "20250101_000000" traceCompleted rfl⟩

/-- C4 counterexample: over the same completed poll result and the same
downloaded document, two render passes one second apart do not produce the
same rendered view — the download button's suggested file name embeds the
render timestamp. -/
theorem timestamped_filename_counterexample :
    pollStatusOf (.str "abc123") respCompleted = some (.str "completed") ∧
    (renderPass sW respCompleted respCompleted respDoc "20250101_000000").map
        RenderTrace.view ≠
      (renderPass sW respCompleted respCompleted respDoc "20250101_000001").map
        RenderTrace.view := by
  refine ⟨rfl, fun h => ?_⟩
  have h2 := congrArg (Option.map downloadNames) h
  have e1 : Option.map downloadNames
      ((renderPass sW respCompleted respCompleted respDoc "20250101_000000").map
        RenderTrace.view) = some ["documentation_20250101_000000.md"] := rfl
  have e2 : Option.map downloadNames
      ((renderPass sW respCompleted respCompleted respDoc "20250101_000001").map
        RenderTrace.view) = some ["documentation_20250101_000001.md"] := rfl
  rw [e1, e2] at h2
  exact absurd h2 (by decide)

/-- C4 (amended): for a terminal poll status, two consecutive render passes
over the same poll result and the same downloaded document leave the session
unchanged, each trigger at most one download, and produce rendered views
that agree except possibly in the download button's timestamped file name;
the views are identical whenever the two render timestamps coincide. -/
theorem terminal_rerender_stable_up_to_filename (s : Session) (tid : JVal)
    (r d : HttpResult) (now1 now2 : String) (t1 t2 : RenderTrace) (v : JVal)
    (htid : s.task_id = some tid)
    (hv : pollStatusOf tid r = some v)
    (hterm : isTerminalStatus v = true)
    (h1 : renderPass s r r d now1 = some t1)
    (h2 : renderPass t1.session r r d now2 = some t2) :
    t1.session = s ∧
    t1.download_calls ≤ 1 ∧ t2.download_calls ≤ 1 ∧
    scrubFileNames t1.view = scrubFileNames t2.view ∧
    (now1 = now2 → t1.view = t2.view) := by
  have hs1 := renderPass_session_eq s r r d now1 t1 h1
  rw [hs1] at h2
  refine ⟨hs1, renderPass_download_le_one s r r d now1 t1 h1,
    renderPass_download_le_one s r r d now2 t2 h2, ?_, ?_⟩
  · have hcc := renderPass_scrub_const s r r d now1 now2
    rw [h1, h2] at hcc
    simpa using hcc
  · intro hnow
    subst hnow
    rw [h1] at h2
    injection h2 with h2
    rw [h2]

/-- C4 witness: two concrete consecutive renders of a completed task, one
second apart. -/
theorem terminal_rerender_stable_up_to_filename_witness :
    (sW.task_id = some (.str "abc123") ∧
     pollStatusOf (.str "abc123") respCompleted = some (.str "completed") ∧
     isTerminalStatus (.str "completed") = true ∧
     renderPass sW respCompleted respCompleted respDoc "20250101_000000" =
       some traceCompleted ∧
     renderPass traceCompleted.session respCompleted respCompleted respDoc
       "20250101_000001" = some traceCompleted2) ∧
    (traceCompleted.session = sW ∧
     traceCompleted.download_calls ≤ 1 ∧ traceCompleted2.download_calls ≤ 1 ∧
     scrubFileNames traceCompleted.view = scrubFileNames traceCompleted2.view ∧
     ("20250101_000000" = "20250101_000001" →
        traceCompleted.view = traceCompleted2.view)) :=
  ⟨⟨rfl, rfl, rfl, rfl, rfl⟩,
   terminal_rerender_stable_up_to_filename sW (.str "abc123") respCompleted respDoc
     "20250101_000000" "20250101_000001" traceCompleted traceCompleted2 (.str "completed")
     rfl rfl rfl rfl rfl⟩
